import Mathlib

/-!
Verification of the drone light-show designer core
(`src/app/page.tsx`, `src/components/drawing-canvas.tsx`, and the
settings-panel / flight-preview module).

JavaScript numbers are modelled by `ℚ` wherever the code only performs
exact arithmetic on the inputs the claims touch; `Math.floor`,
`Math.round`, `Math.trunc` and the `%` remainder are given explicit
rational models below.  The 3D renderer additionally has to cope with
corrupted (non-finite) stored coordinates, so its input points are
modelled by an extended number type `JsNum` with `NaN` and signed
infinity.
-/

/-- JS `Math.trunc` (the rounding used by the `%` operator): toward zero. -/
def jsTrunc (x : ℚ) : ℚ := if 0 ≤ x then (⌊x⌋ : ℚ) else (⌈x⌉ : ℚ)

/-- The JS `%` remainder: `a - b * trunc (a / b)`.  (For `b = 0` JS yields `NaN`;
this model is only consulted at `b > 0`, where it agrees with JS.) -/
def jsFmod (a b : ℚ) : ℚ := a - b * jsTrunc (a / b)

/-- JS `Math.round`: half-up rounding, `⌊x + 1/2⌋`. -/
def jsRound (x : ℚ) : ℤ := ⌊x + 1/2⌋

/-- JS `Math.floor` as an integer. -/
def jsFloor (x : ℚ) : ℤ := ⌊x⌋

/-- The `rgb` channel triple of `DronePoint` (`{r, g, b}` in `page.tsx`). -/
structure Rgb where
  r : ℤ
  g : ℤ
  b : ℤ
deriving DecidableEq, Repr

/-- Waypoint record `DronePoint` from `src/app/page.tsx`: a timed, colored waypoint. -/
structure DronePoint where
  x : ℚ
  y : ℚ
  z : ℚ
  color : String
  rgb : Rgb
  brightness : ℚ
  timestamp : ℚ
  speed : ℚ
  transitionDuration : ℚ
deriving DecidableEq, Repr

/-- Sequence record `DroneSequence` from `src/app/page.tsx`. -/
structure DroneSequence where
  id : String
  name : String
  points : List DronePoint
  duration : ℚ
deriving DecidableEq, Repr

/-- Conversion `hslToRgb` from the settings-panel module (lines 240-284): standard
HSL→RGB with six sextant cases, rounding each channel with `Math.round`. -/
def hslToRgb (h0 s0 l0 : ℚ) : Rgb :=
  let h := h0 / 360
  let s := s0 / 100
  let l := l0 / 100
  let c := (1 - |2 * l - 1|) * s
  let x := c * (1 - |jsFmod (h * 6) 2 - 1|)
  let m := l - c / 2
  let rgb : ℚ × ℚ × ℚ :=
    if 0 ≤ h ∧ h < 1/6 then (c, x, 0)
    else if 1/6 ≤ h ∧ h < 2/6 then (x, c, 0)
    else if 2/6 ≤ h ∧ h < 3/6 then (0, c, x)
    else if 3/6 ≤ h ∧ h < 4/6 then (0, x, c)
    else if 4/6 ≤ h ∧ h < 5/6 then (x, 0, c)
    else if 5/6 ≤ h ∧ h < 1 then (c, 0, x)
    else (0, 0, 0)
  ⟨jsRound ((rgb.1 + m) * 255), jsRound ((rgb.2.1 + m) * 255),
    jsRound ((rgb.2.2 + m) * 255)⟩

/-- C8: `hslToRgb(h, 100, 50)` for hues 0, 60, 120, 180, 240, 300 yields the
six canonical colors red, yellow, green, cyan, blue, magenta — here exactly,
which is within the claim's ±1-per-channel tolerance. -/
theorem hslToRgb_canonical_colors :
    hslToRgb 0 100 50 = ⟨255, 0, 0⟩ ∧
    hslToRgb 60 100 50 = ⟨255, 255, 0⟩ ∧
    hslToRgb 120 100 50 = ⟨0, 255, 0⟩ ∧
    hslToRgb 180 100 50 = ⟨0, 255, 255⟩ ∧
    hslToRgb 240 100 50 = ⟨0, 0, 255⟩ ∧
    hslToRgb 300 100 50 = ⟨255, 0, 255⟩ := by
  refine ⟨?_, ?_, ?_, ?_, ?_, ?_⟩ <;>
    norm_num [hslToRgb, jsFmod, jsTrunc, jsRound, Rgb.mk.injEq]

/-! ## Application state and the draft/commit state machine

`AppState` gathers the React state of `page.tsx` (`sequences`,
`activeSequence`, `previewSequence`, plus the `localStorage` blob under
the single key `"drone-sequences"`, modelled in parsed form) and of
`drawing-canvas.tsx` (`unsavedPoints`, `sequenceName`,
`hasUnsavedChanges`).  Each handler below is one synchronous event
turn, including the `useEffect` reactions it triggers. -/

structure AppState where
  sequences : List DroneSequence
  activeSequence : Option String
  previewSequence : Option DroneSequence
  unsavedPoints : List DronePoint
  sequenceName : String
  hasUnsavedChanges : Bool
  /-- Parsed content of `localStorage["drone-sequences"]`; `none` = no blob. -/
  storage : Option (List DroneSequence)
deriving Repr

def canvasWidth : ℚ := 400
def canvasHeight : ℚ := 300

/-- The `useEffect` of `page.tsx` lines 99-103: after `sequences` changes it
writes the whole collection to the single storage key — but only when
`sequences.length > 0`. -/
def persist (s : AppState) : AppState :=
  if s.sequences.length > 0 then { s with storage := some s.sequences } else s

/-- Handler `addSequence` from `page.tsx` (lines 118-124), composed with the
persistence effect that its `setSequences` triggers. -/
def addSequence (s : AppState) (seq : DroneSequence) : AppState :=
  persist
    { s with
      sequences := s.sequences ++ [seq]
      activeSequence :=
        match s.activeSequence with
        | none => some seq.id
        | some a => some a
      previewSequence := none }

/-- Handler `updateSequence` from `page.tsx` (lines 126-129), composed with the
persistence effect.  Its only caller passes a complete `DroneSequence` as
`updates`, so the spread `{...seq, ...updates}` replaces every field. -/
def updateSequence (s : AppState) (id : String) (upd : DroneSequence) : AppState :=
  persist
    { s with
      sequences := s.sequences.map fun q => if q.id = id then upd else q
      previewSequence := none }

/-- Handler `deleteSequence` from `page.tsx` (lines 131-144), composed with the
persistence effect: filter out the id, and re-point `activeSequence` to the
first remaining sequence (or `none`) when the deleted id was active. -/
def deleteSequence (s : AppState) (id : String) : AppState :=
  let remaining := s.sequences.filter fun q => q.id ≠ id
  persist
    { s with
      sequences := remaining
      activeSequence :=
        if s.activeSequence = some id then
          match remaining.head? with
          | some q => some q.id
          | none => none
        else s.activeSequence }

/-- Handler `handlePreviewSequence` from `page.tsx` (lines 151-153) composed with the
canvas `useEffect` on `previewSequence` (`drawing-canvas.tsx` lines 59-65):
the draft is replaced wholesale by the preview and marked dirty. -/
def handlePreviewSequence (s : AppState) (seq : DroneSequence) : AppState :=
  { s with
    previewSequence := some seq
    unsavedPoints := seq.points
    sequenceName := seq.name
    hasUnsavedChanges := true }

/-- Handler `clearPreview` from `page.tsx` (lines 155-157).  Setting
`previewSequence` to `null` triggers no canvas effect (the effect body is
guarded by `if (previewSequence)`), so the draft fields are untouched. -/
def clearPreview (s : AppState) : AppState :=
  { s with previewSequence := none }

/-- The waypoint built by `handleCanvasClick` (`drawing-canvas.tsx` lines
262-272) from the click position in canvas coordinates.  `now` stands for
`Date.now()`. -/
def mkClickPoint (isFrontView : Bool) (x y currentAltitude : ℚ)
    (currentColor : String) (currentRgb : Rgb) (now : ℚ) : DronePoint :=
  { x := x
    y := if isFrontView then canvasHeight / 2 else y
    z := if isFrontView then max 0 ((canvasHeight - y) / 3) else currentAltitude
    color := currentColor
    rgb := currentRgb
    brightness := 8/10
    timestamp := now
    speed := 5
    transitionDuration := 500 }

/-- Handler `handleCanvasClick` (`drawing-canvas.tsx` lines 233-276): when a preview
is showing, `onClearPreview` is invoked first (which only nulls the preview
pointer); then the new waypoint is appended to `unsavedPoints` and the draft
is marked dirty. -/
def handleCanvasClick (s : AppState) (isFrontView : Bool) (x y : ℚ)
    (currentAltitude : ℚ) (currentColor : String) (currentRgb : Rgb)
    (now : ℚ) : AppState :=
  let s1 := if s.previewSequence.isSome then clearPreview s else s
  let newPoint := mkClickPoint isFrontView x y currentAltitude currentColor currentRgb now
  { s1 with
    unsavedPoints := s1.unsavedPoints ++ [newPoint]
    hasUnsavedChanges := true }

/-- JS `Math.max(...)` over a list of numbers.  (On the empty list JS yields
`-Infinity`; every use below is guarded by a non-emptiness check, so the
`0` default is never consulted.) -/
def jsMax : List ℚ → ℚ
  | [] => 0
  | a :: l => l.foldl max a

/-- The value `Math.max(...points.map(p => p.timestamp))` (`drawing-canvas.tsx`
line 302). -/
def maxTimestamp (ps : List DronePoint) : ℚ :=
  jsMax (ps.map fun p => p.timestamp)

/-- The sequence object built by `saveSequence` (`drawing-canvas.tsx` lines
298-303).  `idStr` is `sequence?.id || Date.now().toString()`. -/
def mkSavedSequence (points : List DronePoint) (name idStr : String) :
    DroneSequence :=
  { id := idStr
    name := name
    points := points
    duration := if points.length > 0 then maxTimestamp points + 1000 else 0 }

/-- Handler `saveSequence` (`drawing-canvas.tsx` lines 288-321) as one event turn.
Returns the new state and a flag telling whether the save was rejected with
the destructive "No Points to Save" toast.  `now` stands for
`Date.now().toString()`. -/
def saveSequence (s : AppState) (now : String) : AppState × Bool :=
  if s.unsavedPoints.length = 0 then (s, true)
  else
    let activeSeq := s.sequences.find? fun q => some q.id = s.activeSequence
    let newSeq :=
      mkSavedSequence s.unsavedPoints s.sequenceName
        (match activeSeq with
         | some q => q.id
         | none => now)
    let s1 :=
      match activeSeq with
      | some q => updateSequence s q.id newSeq
      | none => addSequence s newSeq
    ({ s1 with hasUnsavedChanges := false, previewSequence := none }, false)

/-- The three operations that mutate the committed collection in
`page.tsx`. -/
inductive Mutation where
  | add (seq : DroneSequence)
  | update (id : String) (upd : DroneSequence)
  | del (id : String)

def applyMutation (s : AppState) : Mutation → AppState
  | .add seq => addSequence s seq
  | .update id upd => updateSequence s id upd
  | .del id => deleteSequence s id

/-- The pixel at which `drawWaypoints` (`drawing-canvas.tsx` lines 154-156
and 168-170) renders a waypoint: `x` directly, and `y` either directly
(top-down) or as `canvasHeight - z * 3` (front view). -/
def drawnPixel (isFrontView : Bool) (p : DronePoint) : ℚ × ℚ :=
  (p.x, if isFrontView then canvasHeight - p.z * 3 else p.y)

/-! ## Concrete sample data used by witnesses and counterexamples -/

def samplePoint : DronePoint :=
  { x := 50, y := 60, z := 10, color := "#00ff00", rgb := ⟨0, 255, 0⟩,
    brightness := 8/10, timestamp := 0, speed := 5, transitionDuration := 500 }

def samplePreview : DroneSequence :=
  { id := "circle-preview-1", name := "Circle Pattern", points := [samplePoint],
    duration := 12000 }

def seqA : DroneSequence :=
  { id := "a", name := "A", points := [samplePoint], duration := 1000 }

def seqB : DroneSequence :=
  { id := "b", name := "B", points := [samplePoint], duration := 2000 }

def seqC : DroneSequence :=
  { id := "c", name := "C", points := [samplePoint], duration := 3000 }

def emptyState : AppState :=
  { sequences := [], activeSequence := none, previewSequence := none,
    unsavedPoints := [], sequenceName := "New Sequence",
    hasUnsavedChanges := false, storage := none }

/-- A state holding exactly the committed sequence `seqA`, active and
faithfully persisted. -/
def stateA : AppState :=
  { sequences := [seqA], activeSequence := some "a", previewSequence := none,
    unsavedPoints := [], sequenceName := "New Sequence",
    hasUnsavedChanges := false, storage := some [seqA] }

/-- A state holding `[seqA, seqB, seqC]` with `seqB` active. -/
def stateABC : AppState :=
  { sequences := [seqA, seqB, seqC], activeSequence := some "b",
    previewSequence := none, unsavedPoints := [],
    sequenceName := "New Sequence", hasUnsavedChanges := false,
    storage := some [seqA, seqB, seqC] }

/-! ## Frame lemmas about `persist` -/

lemma persist_sequences (s : AppState) : (persist s).sequences = s.sequences := by
  unfold persist; split <;> rfl

lemma persist_activeSequence (s : AppState) :
    (persist s).activeSequence = s.activeSequence := by
  unfold persist; split <;> rfl

lemma persist_storage_of_ne_nil (s : AppState) (h : s.sequences ≠ []) :
    (persist s).storage = some s.sequences := by
  unfold persist
  rw [if_pos (by simpa [List.length_pos] using h)]

lemma persist_storage_of_nil (s : AppState) (h : s.sequences = []) :
    (persist s).storage = s.storage := by
  unfold persist
  rw [if_neg (by simp [h])]

/-! ## C5 — save with an empty draft is rejected and is a no-op -/

/-- C5: if Save is invoked while the draft has zero waypoints, the save is
rejected with a user-visible notice (the `true` flag) and the whole state —
draft points, name, unsaved-changes flag, and the committed collection — is
returned unchanged. -/
theorem save_empty_draft_rejected_noop (s : AppState) (now : String)
    (h : s.unsavedPoints = []) : saveSequence s now = (s, true) := by
  unfold saveSequence
  rw [if_pos (by simp [h])]

theorem save_empty_draft_rejected_noop_witness :
    saveSequence emptyState "17" = (emptyState, true) :=
  save_empty_draft_rejected_noop emptyState "17" rfl

/-! ## C2 — click-add during a preview -/

/-- C2 counterexample: with the preview `samplePreview` loaded into the
draft, a click-add does NOT discard the preview content — the preview's
waypoint `samplePoint` is still in the draft afterwards, so the claim that
"the draft's waypoint array does not contain the preview's waypoints" fails
at this concrete input. -/
theorem click_add_merges_preview_cex :
    samplePoint ∈
      (handleCanvasClick (handlePreviewSequence emptyState samplePreview)
        false 10 20 20 "#ff0000" ⟨255, 0, 0⟩ 5).unsavedPoints := by
  simp [handleCanvasClick, handlePreviewSequence, clearPreview, emptyState,
    samplePreview]

/-- C2 amended: a click-add while a generated-pattern preview is loaded
clears the preview *pointer* (preview mode exits) and appends the clicked
waypoint, but the preview's waypoints remain in the draft: the draft becomes
the preview's points with the new point appended (merged, not discarded).
The unsaved-changes flag stays set. -/
theorem click_add_clears_pointer_merges_points_amended (s : AppState)
    (pv : DroneSequence) (isFrontView : Bool) (x y alt : ℚ) (color : String)
    (rgb : Rgb) (now : ℚ) :
    (handleCanvasClick (handlePreviewSequence s pv) isFrontView x y alt color
        rgb now).previewSequence = none ∧
    (handleCanvasClick (handlePreviewSequence s pv) isFrontView x y alt color
        rgb now).unsavedPoints =
      pv.points ++ [mkClickPoint isFrontView x y alt color rgb now] ∧
    (handleCanvasClick (handlePreviewSequence s pv) isFrontView x y alt color
        rgb now).hasUnsavedChanges = true := by
  refine ⟨?_, ?_, ?_⟩ <;> simp [handleCanvasClick, handlePreviewSequence, clearPreview]

/-! ## C3 — persistence after mutations -/

/-- C3 counterexample: deleting the only sequence of `stateA` empties the
in-memory collection but performs no write, so the persisted blob still
holds the deleted sequence and does not equal the in-memory collection. -/
theorem empty_delete_stale_storage_cex :
    (deleteSequence stateA "a").sequences = [] ∧
    (deleteSequence stateA "a").storage = some [seqA] ∧
    (deleteSequence stateA "a").storage ≠
      some (deleteSequence stateA "a").sequences := by
  refine ⟨?_, ?_, ?_⟩ <;>
    simp [deleteSequence, persist, stateA, seqA]

/-- C3 amended: after each mutation of the committed collection (add,
update-by-id, delete), if the resulting collection is non-empty the whole
collection is written to the persistence sink under the single storage key,
so the blob equals the in-memory collection; a mutation that leaves the
collection empty performs no write, so the blob keeps its previous value. -/
theorem persist_after_mutation_amended (s : AppState) (m : Mutation) :
    ((applyMutation s m).sequences ≠ [] →
      (applyMutation s m).storage = some (applyMutation s m).sequences) ∧
    ((applyMutation s m).sequences = [] →
      (applyMutation s m).storage = s.storage) := by
  have key : ∀ t : AppState, t.storage = s.storage →
      ((persist t).sequences ≠ [] →
        (persist t).storage = some (persist t).sequences) ∧
      ((persist t).sequences = [] → (persist t).storage = s.storage) := by
    intro t ht
    constructor
    · intro hne
      rw [persist_sequences] at hne ⊢
      exact persist_storage_of_ne_nil t hne
    · intro hnil
      rw [persist_sequences] at hnil
      rw [persist_storage_of_nil t hnil, ht]
  cases m with
  | add seq => exact key _ rfl
  | update id upd => exact key _ rfl
  | del id => exact key _ rfl

theorem persist_after_mutation_witness :
    (applyMutation emptyState (.add seqA)).storage =
      some (applyMutation emptyState (.add seqA)).sequences ∧
    (applyMutation stateA (.del "a")).storage = stateA.storage :=
  ⟨(persist_after_mutation_amended emptyState (.add seqA)).1
      (by simp [applyMutation, addSequence, persist, emptyState]),
    (persist_after_mutation_amended stateA (.del "a")).2
      (by simp [applyMutation, deleteSequence, persist, stateA, seqA])⟩

/-! ## C6 — deleting the active sequence re-points the active id -/

/-- C6: when the sequence whose id is the active pointer is deleted, the
pointer is re-pointed to the id of the first remaining sequence — which
exists in the post-deletion collection — if any remain, and to `none`
otherwise; afterwards the pointer never equals the deleted id. -/
theorem delete_active_repoints (s : AppState) (id : String)
    (h : s.activeSequence = some id) :
    (∀ q, (s.sequences.filter fun r => r.id ≠ id).head? = some q →
      (deleteSequence s id).activeSequence = some q.id ∧
        q ∈ (deleteSequence s id).sequences) ∧
    ((s.sequences.filter fun r => r.id ≠ id) = [] →
      (deleteSequence s id).activeSequence = none) ∧
    (deleteSequence s id).activeSequence ≠ some id := by
  have hseq : (deleteSequence s id).sequences =
      s.sequences.filter fun r => r.id ≠ id := by
    unfold deleteSequence
    rw [persist_sequences]
  have hact : (deleteSequence s id).activeSequence =
      match (s.sequences.filter fun r => r.id ≠ id).head? with
      | some q => some q.id
      | none => none := by
    unfold deleteSequence
    rw [persist_activeSequence]
    simp [h]
  refine ⟨?_, ?_, ?_⟩
  · intro q hq
    refine ⟨by rw [hact, hq], ?_⟩
    rw [hseq]
    exact List.mem_of_mem_head? hq
  · intro hnil
    rw [hact, hnil]
    rfl
  · rw [hact]
    cases hh : (s.sequences.filter fun r => r.id ≠ id).head? with
    | none => simp
    | some q =>
      have hqmem : q ∈ s.sequences.filter fun r => r.id ≠ id :=
        List.mem_of_mem_head? hh
      have hqid : q.id ≠ id := by
        have := List.of_mem_filter hqmem
        simpa using this
      simp [hqid]

theorem delete_active_repoints_witness :
    ((deleteSequence stateABC "b").activeSequence = some seqA.id ∧
      seqA ∈ (deleteSequence stateABC "b").sequences) ∧
    (deleteSequence stateA "a").activeSequence = none ∧
    (deleteSequence stateABC "b").activeSequence ≠ some "b" :=
  ⟨(delete_active_repoints stateABC "b" rfl).1 seqA
      (by simp [stateABC, seqA, seqB, seqC]),
    (delete_active_repoints stateA "a" rfl).2.1
      (by simp [stateA, seqA]),
    (delete_active_repoints stateABC "b" rfl).2.2⟩

/-! ## C10 — frame effect of deletion -/

/-- C10: deletion by id removes exactly the sequences whose id equals
`id`: the surviving list is the filter of the original (so every survivor
keeps all its fields and the relative order is preserved — it is a sublist),
no survivor carries the deleted id, every differently-keyed sequence
survives, and when the deleted id is not the active pointer the active
pointer is unchanged. -/
theorem delete_frame_effect (s : AppState) (id : String) :
    (deleteSequence s id).sequences =
      (s.sequences.filter fun q => q.id ≠ id) ∧
    (deleteSequence s id).sequences.Sublist s.sequences ∧
    (∀ q ∈ (deleteSequence s id).sequences, q.id ≠ id) ∧
    (∀ q ∈ s.sequences, q.id ≠ id → q ∈ (deleteSequence s id).sequences) ∧
    (s.activeSequence ≠ some id →
      (deleteSequence s id).activeSequence = s.activeSequence) := by
  have hseq : (deleteSequence s id).sequences =
      s.sequences.filter fun q => q.id ≠ id := by
    unfold deleteSequence
    rw [persist_sequences]
  refine ⟨hseq, ?_, ?_, ?_, ?_⟩
  · rw [hseq]; exact List.filter_sublist s.sequences
  · intro q hq
    rw [hseq] at hq
    simpa using List.of_mem_filter hq
  · intro q hq hne
    rw [hseq]
    exact List.mem_filter.mpr ⟨hq, by simpa using hne⟩
  · intro hne
    unfold deleteSequence
    rw [persist_activeSequence]
    simp [hne]

theorem delete_frame_effect_witness :
    (deleteSequence stateABC "zzz").sequences =
      (stateABC.sequences.filter fun q => q.id ≠ "zzz") ∧
    (deleteSequence stateABC "zzz").activeSequence = stateABC.activeSequence :=
  ⟨(delete_frame_effect stateABC "zzz").1,
    (delete_frame_effect stateABC "zzz").2.2.2.2 (by simp [stateABC])⟩

/-! ## C9 — canvas forward/inverse round trip -/

/-- C9: for a pixel `(px, py)` with `0 ≤ px ≤ 400` and `0 ≤ py ≤ 300`, the
top-down click map followed by top-down rendering reproduces `(px, py)`
exactly, and the front-plane click map followed by front-plane rendering
reproduces `px` exactly and `py` (equivalently `z`) exactly in this exact
rational model — within the claim's floating-point tolerance. -/
theorem canvas_click_render_roundtrip (px py alt : ℚ) (color : String)
    (rgb : Rgb) (now : ℚ) (hx0 : 0 ≤ px) (hx1 : px ≤ 400) (hy0 : 0 ≤ py)
    (hy1 : py ≤ 300) :
    drawnPixel false (mkClickPoint false px py alt color rgb now) = (px, py) ∧
    drawnPixel true (mkClickPoint true px py alt color rgb now) = (px, py) := by
  constructor
  · simp [drawnPixel, mkClickPoint]
  · have hz : max 0 ((canvasHeight - py) / 3) = (canvasHeight - py) / 3 := by
      rw [max_eq_right]
      rw [canvasHeight]
      linarith
    simp only [drawnPixel, mkClickPoint, if_pos, hz, Prod.mk.injEq]
    refine ⟨trivial, ?_⟩
    ring

/-! ## C1 — playback interpolator (`getCurrentPosition` in the
flight-preview module, lines 694-719) -/

/-- The helper `THREE.MathUtils.lerp(x, y, t) = x + (y - x) * t`. -/
def lerp (a b t : ℚ) : ℚ := a + (b - a) * t

/-- JS array indexing with the `|| fallback` idiom: out-of-range access
yields `undefined`, so the fallback is taken. -/
def jsIndex (ps : List DronePoint) (i : ℤ) (fb : DronePoint) : DronePoint :=
  if 0 ≤ i then ps.getD i.toNat fb else fb

/-- The world-space mapping used inside `getCurrentPosition`:
`((x - 200) / 20, z / 10 + 2, (y - 150) / 20)`. -/
def dronePos (p : DronePoint) : ℚ × ℚ × ℚ :=
  ((p.x - 200) / 20, p.z / 10 + 2, (p.y - 150) / 20)

/-- A fallback `DronePoint`; it stands for JS `undefined` in positions the
guarded code never reads. -/
def undefPoint : DronePoint :=
  { x := 0, y := 0, z := 0, color := "", rgb := ⟨0, 0, 0⟩, brightness := 0,
    timestamp := 0, speed := 0, transitionDuration := 0 }

/-- Interpolator `getCurrentPosition` from the flight-preview module (lines 694-719):
piecewise-linear interpolation along the uniform fractional index
`progress * (pointCount - 1)`, looping on `duration`.  (With
`duration = 0` and non-empty points JS would produce `NaN`; the claims only
consult this model at positive durations, where the rational model is
exact.) -/
def getCurrentPosition (seq : DroneSequence) (currentTime : ℚ) : ℚ × ℚ × ℚ :=
  if seq.points.length = 0 then (0, 3, 0)
  else
    let totalDuration := seq.duration
    let progress := jsFmod currentTime totalDuration / totalDuration
    let totalPoints := seq.points.length
    if totalPoints = 1 then
      let p := seq.points.headD undefPoint
      ((p.x - 200) / 20, p.z / 10 + 2, (p.y - 150) / 20)
    else
      let segmentProgress := progress * ((totalPoints : ℚ) - 1)
      let segmentIndex : ℤ := ⌊segmentProgress⌋
      let localProgress := segmentProgress - (segmentIndex : ℚ)
      let currentPoint := jsIndex seq.points segmentIndex (seq.points.headD undefPoint)
      let nextPoint := jsIndex seq.points (segmentIndex + 1) currentPoint
      (lerp ((currentPoint.x - 200) / 20) ((nextPoint.x - 200) / 20) localProgress,
        lerp (currentPoint.z / 10 + 2) (nextPoint.z / 10 + 2) localProgress,
        lerp ((currentPoint.y - 150) / 20) ((nextPoint.y - 150) / 20) localProgress)

def cexP0 : DronePoint :=
  { x := 0, y := 0, z := 0, color := "#ff0000", rgb := ⟨255, 0, 0⟩,
    brightness := 8/10, timestamp := 0, speed := 5, transitionDuration := 500 }

def cexP1 : DronePoint :=
  { x := 100, y := 0, z := 0, color := "#00ff00", rgb := ⟨0, 255, 0⟩,
    brightness := 8/10, timestamp := 1000, speed := 5, transitionDuration := 500 }

def cexP2 : DronePoint :=
  { x := 200, y := 0, z := 0, color := "#0000ff", rgb := ⟨0, 0, 255⟩,
    brightness := 8/10, timestamp := 2000, speed := 5, transitionDuration := 500 }

def cexSeq : DroneSequence :=
  { id := "s", name := "S", points := [cexP0, cexP1, cexP2], duration := 3000 }

/-- C1 counterexample: for the 3-waypoint sequence `cexSeq` with timestamps
`[0, 1000, 2000]` and duration `3000`, the position at `t = 1500` is exactly
waypoint 1's world-mapped position, NOT the midpoint of waypoints 1 and 2 as
the claim states (`segmentProgress = 0.5 · 2 = 1.0`, so the local fraction
is `0`). -/
theorem interpolator_t1500_not_midpoint_cex :
    getCurrentPosition cexSeq 1500 = dronePos cexP1 ∧
    getCurrentPosition cexSeq 1500 ≠
      (((dronePos cexP1).1 + (dronePos cexP2).1) / 2,
        ((dronePos cexP1).2.1 + (dronePos cexP2).2.1) / 2,
        ((dronePos cexP1).2.2 + (dronePos cexP2).2.2) / 2) := by
  have h : getCurrentPosition cexSeq 1500 = dronePos cexP1 := by
    norm_num [getCurrentPosition, cexSeq, cexP0, cexP1, cexP2, jsFmod,
      jsTrunc, jsIndex, lerp, dronePos, undefPoint]
  refine ⟨h, ?_⟩
  rw [h]
  norm_num [dronePos, cexP1, cexP2, Prod.ext_iff]

/-- C1 amended: for every 3-waypoint sequence with timestamps
`[0, 1000, 2000]` and duration `3000`, the playback position at `t = 0` is
waypoint 0's world-mapped position; at `t = 1500` it is waypoint 1's
world-mapped position (the interpolator places waypoint `i` at the uniform
fraction `i / (count - 1)` of the period, ignoring timestamps); the exact
midpoint of waypoints 1 and 2 is attained at `t = 2250`; and at `t = 3000`
(one full period) the position is waypoint 0's again. -/
theorem interpolator_boundary_amended (p0 p1 p2 : DronePoint)
    (id name : String) (h0 : p0.timestamp = 0) (h1 : p1.timestamp = 1000)
    (h2 : p2.timestamp = 2000) :
    getCurrentPosition ⟨id, name, [p0, p1, p2], 3000⟩ 0 = dronePos p0 ∧
    getCurrentPosition ⟨id, name, [p0, p1, p2], 3000⟩ 1500 = dronePos p1 ∧
    getCurrentPosition ⟨id, name, [p0, p1, p2], 3000⟩ 2250 =
      (((dronePos p1).1 + (dronePos p2).1) / 2,
        ((dronePos p1).2.1 + (dronePos p2).2.1) / 2,
        ((dronePos p1).2.2 + (dronePos p2).2.2) / 2) ∧
    getCurrentPosition ⟨id, name, [p0, p1, p2], 3000⟩ 3000 = dronePos p0 := by
  refine ⟨?_, ?_, ?_, ?_⟩
  · norm_num [getCurrentPosition, jsFmod, jsTrunc, jsIndex, lerp, dronePos,
      undefPoint, Prod.ext_iff]
  · norm_num [getCurrentPosition, jsFmod, jsTrunc, jsIndex, lerp, dronePos,
      undefPoint, Prod.ext_iff]
  · norm_num [getCurrentPosition, jsFmod, jsTrunc, jsIndex, lerp, dronePos,
      undefPoint, Prod.ext_iff, Int.toNat_ofNat]
    simp only [show (2 : ℤ).toNat = 2 from rfl, List.getElem_cons_succ,
      List.getElem_cons_zero]
    refine ⟨by ring, by ring, by ring⟩
  · norm_num [getCurrentPosition, jsFmod, jsTrunc, jsIndex, lerp, dronePos,
      undefPoint, Prod.ext_iff]

theorem interpolator_boundary_witness :
    getCurrentPosition ⟨"s", "S", [cexP0, cexP1, cexP2], 3000⟩ 0 = dronePos cexP0 ∧
    getCurrentPosition ⟨"s", "S", [cexP0, cexP1, cexP2], 3000⟩ 1500 = dronePos cexP1 ∧
    getCurrentPosition ⟨"s", "S", [cexP0, cexP1, cexP2], 3000⟩ 2250 =
      (((dronePos cexP1).1 + (dronePos cexP2).1) / 2,
        ((dronePos cexP1).2.1 + (dronePos cexP2).2.1) / 2,
        ((dronePos cexP1).2.2 + (dronePos cexP2).2.2) / 2) ∧
    getCurrentPosition ⟨"s", "S", [cexP0, cexP1, cexP2], 3000⟩ 3000 = dronePos cexP0 :=
  interpolator_boundary_amended cexP0 cexP1 cexP2 "s" "S" rfl rfl rfl

theorem canvas_click_render_roundtrip_witness :
    drawnPixel false (mkClickPoint false 100 60 20 "#ff0000" ⟨255, 0, 0⟩ 0) =
      (100, 60) ∧
    drawnPixel true (mkClickPoint true 100 60 20 "#ff0000" ⟨255, 0, 0⟩ 0) =
      (100, 60) :=
  canvas_click_render_roundtrip 100 60 20 "#ff0000" ⟨255, 0, 0⟩ 0
    (by norm_num) (by norm_num) (by norm_num) (by norm_num)

/-! ## Pattern generators (settings-panel module)

`Math.cos`/`Math.sin` values at the angle computed for loop index `i` are
supplied as oracle functions `ℕ → ℚ` (the angles involve `π`, so the trig
values are not rational); no claim depends on them.  The LED settings
`ledBrightness`, `transitionSpeed` and the flight setting `maxSpeed` are
parameters, as are the `Date.now()`-derived id and name strings. -/

/-- The color string `hsl(h, s%, l%)` built by the generators. -/
def hslString (h s l : ℚ) : String :=
  "hsl(" ++ toString h ++ ", " ++ toString s ++ "%, " ++ toString l ++ "%)"

/-- Generator `generateCirclePattern` (settings-panel lines 44-85): 12 points on a
radius-60 circle at 15 m, timestamps `i * 1000`, duration
`points.length * 1000`. -/
def generateCirclePattern (cosv sinv : ℕ → ℚ)
    (ledBrightness transitionSpeed maxSpeed : ℚ) (idStr nameStr : String) :
    DroneSequence :=
  let points := (List.range 12).map fun (i : ℕ) =>
    let hue := ((i : ℚ) / 12) * 360
    { x := 200 + cosv i * 60
      y := 150 + sinv i * 60
      z := (15 : ℚ)
      color := hslString hue 70 50
      rgb := hslToRgb hue 70 50
      brightness := ledBrightness / 100
      timestamp := (i : ℚ) * 1000
      speed := maxSpeed
      transitionDuration := transitionSpeed : DronePoint }
  { id := idStr, name := nameStr, points := points,
    duration := (points.length : ℚ) * 1000 }

/-- Generator `generateFigure8Pattern` (settings-panel lines 87-130): 20 points,
`sinT i` / `sin2T i` are the oracle values of `Math.sin t` and
`Math.sin (2t)` at `t = (i/20)·4π`; timestamps `i * 800`, duration
`points.length * 800`. -/
def generateFigure8Pattern (sinT sin2T : ℕ → ℚ)
    (ledBrightness transitionSpeed maxSpeed : ℚ) (idStr nameStr : String) :
    DroneSequence :=
  let points := (List.range 20).map fun (i : ℕ) =>
    let progress := (i : ℚ) / 20
    let hue := jsFmod (progress * 720) 360
    { x := 200 + sinT i * 70
      y := 150 + sin2T i * 50
      z := 18 + sinT i * 3
      color := hslString hue 80 60
      rgb := hslToRgb hue 80 60
      brightness := ledBrightness / 100
      timestamp := (i : ℚ) * 800
      speed := maxSpeed
      transitionDuration := transitionSpeed : DronePoint }
  { id := idStr, name := nameStr, points := points,
    duration := (points.length : ℚ) * 800 }

/-- Generator `generateSpiralPattern` (settings-panel lines 132-176): 24 points on an
expanding spiral, timestamps `i * 600`, duration `points.length * 600`. -/
def generateSpiralPattern (cosv sinv : ℕ → ℚ)
    (ledBrightness transitionSpeed maxSpeed : ℚ) (idStr nameStr : String) :
    DroneSequence :=
  let points := (List.range 24).map fun (i : ℕ) =>
    let progress := (i : ℚ) / 24
    let radius := progress * 80
    let hue := 240 - progress * 240
    { x := 200 + cosv i * radius
      y := 150 + sinv i * radius
      z := 5 + progress * 25
      color := hslString hue 90 55
      rgb := hslToRgb hue 90 55
      brightness := ledBrightness / 100 * (7/10 + progress * (3/10))
      timestamp := (i : ℚ) * 600
      speed := maxSpeed * (1/2 + progress * (1/2))
      transitionDuration := transitionSpeed : DronePoint }
  { id := idStr, name := nameStr, points := points,
    duration := (points.length : ℚ) * 600 }

/-- The three fixed formations (diamond, line, V) of
`generateFormationPattern`, as `(x, y)` offsets around the canvas center
`(200, 150)`. -/
def formations : List (List (ℚ × ℚ)) :=
  [[(200, 120), (230, 150), (200, 180), (170, 150)],
   [(155, 150), (185, 150), (215, 150), (245, 150)],
   [(200, 135), (180, 150), (220, 150), (165, 165)]]

/-- Generator `generateFormationPattern` (settings-panel lines 178-237): the three
4-point formations in order, timestamps
`formationIndex * 4000 + posIndex * 200`, and a hard-coded duration of
`14000`. -/
def generateFormationPattern (ledBrightness transitionSpeed maxSpeed : ℚ)
    (idStr nameStr : String) : DroneSequence :=
  let points := formations.enum.flatMap fun fp =>
    fp.2.enum.map fun pp =>
      let timeOffset := (fp.1 : ℚ) * 4000 + (pp.1 : ℚ) * 200
      let hue := jsFmod ((fp.1 : ℚ) * 120 + (pp.1 : ℚ) * 60) 360
      { x := pp.2.1
        y := pp.2.2
        z := 20 + (fp.1 : ℚ) * 8
        color := hslString hue 75 50
        rgb := hslToRgb hue 75 50
        brightness := ledBrightness / 100
        timestamp := timeOffset
        speed := maxSpeed
        transitionDuration := transitionSpeed : DronePoint }
  { id := idStr, name := nameStr, points := points, duration := 14000 }

/-! ## C4 — duration dominates every timestamp -/

lemma foldl_max_le {D : ℚ} :
    ∀ (l : List ℚ) (a : ℚ), a ≤ D → (∀ x ∈ l, x ≤ D) → l.foldl max a ≤ D := by
  intro l
  induction l with
  | nil => intro a ha _; simpa using ha
  | cons x xs ih =>
    intro a ha hall
    simp only [List.foldl_cons]
    exact ih (max a x) (max_le ha (hall x (by simp)))
      fun y hy => hall y (by simp [hy])

lemma jsMax_le {D : ℚ} (l : List ℚ) (h0 : 0 ≤ D) (h : ∀ x ∈ l, x ≤ D) :
    jsMax l ≤ D := by
  cases l with
  | nil => simpa [jsMax] using h0
  | cons a l =>
    exact foldl_max_le l a (h a (by simp)) fun y hy => h y (by simp [hy])

lemma maxTimestamp_le {D : ℚ} (ps : List DronePoint) (h0 : 0 ≤ D)
    (h : ∀ p ∈ ps, p.timestamp ≤ D) : maxTimestamp ps ≤ D := by
  refine jsMax_le _ h0 ?_
  intro x hx
  obtain ⟨p, hp, rfl⟩ := List.mem_map.mp hx
  exact h p hp

/-- C4: every sequence produced by the four pattern generators has
non-empty points and `duration ≥ max timestamp`; and the freehand save
formula (`mkSavedSequence`) gives `duration ≥ max timestamp` on a non-empty
draft and `duration = 0` on an empty one. -/
theorem generated_and_saved_duration_invariant
    (cosC sinC sinT sin2T cosS sinS : ℕ → ℚ) (br ts ms : ℚ)
    (i1 n1 i2 n2 i3 n3 i4 n4 : String) :
    ((generateCirclePattern cosC sinC br ts ms i1 n1).points ≠ [] ∧
      maxTimestamp (generateCirclePattern cosC sinC br ts ms i1 n1).points ≤
        (generateCirclePattern cosC sinC br ts ms i1 n1).duration) ∧
    ((generateFigure8Pattern sinT sin2T br ts ms i2 n2).points ≠ [] ∧
      maxTimestamp (generateFigure8Pattern sinT sin2T br ts ms i2 n2).points ≤
        (generateFigure8Pattern sinT sin2T br ts ms i2 n2).duration) ∧
    ((generateSpiralPattern cosS sinS br ts ms i3 n3).points ≠ [] ∧
      maxTimestamp (generateSpiralPattern cosS sinS br ts ms i3 n3).points ≤
        (generateSpiralPattern cosS sinS br ts ms i3 n3).duration) ∧
    ((generateFormationPattern br ts ms i4 n4).points ≠ [] ∧
      maxTimestamp (generateFormationPattern br ts ms i4 n4).points ≤
        (generateFormationPattern br ts ms i4 n4).duration) ∧
    (∀ (pts : List DronePoint) (nm idStr : String),
      (pts ≠ [] →
        maxTimestamp pts ≤ (mkSavedSequence pts nm idStr).duration) ∧
      (pts = [] → (mkSavedSequence pts nm idStr).duration = 0)) := by
  refine ⟨⟨?_, ?_⟩, ⟨?_, ?_⟩, ⟨?_, ?_⟩, ⟨?_, ?_⟩, ?_⟩
  · apply List.ne_nil_of_length_pos
    simp [generateCirclePattern]
  · have hd : (generateCirclePattern cosC sinC br ts ms i1 n1).duration =
        12000 := by simp [generateCirclePattern]; norm_num
    rw [hd]
    refine maxTimestamp_le _ (by norm_num) ?_
    intro p hp
    simp only [generateCirclePattern, List.mem_map, List.mem_range] at hp
    obtain ⟨i, hi, rfl⟩ := hp
    have hle : (i : ℚ) ≤ 11 := by exact_mod_cast Nat.lt_succ_iff.mp hi
    simp only
    nlinarith
  · apply List.ne_nil_of_length_pos
    simp [generateFigure8Pattern]
  · have hd : (generateFigure8Pattern sinT sin2T br ts ms i2 n2).duration =
        16000 := by simp [generateFigure8Pattern]; norm_num
    rw [hd]
    refine maxTimestamp_le _ (by norm_num) ?_
    intro p hp
    simp only [generateFigure8Pattern, List.mem_map, List.mem_range] at hp
    obtain ⟨i, hi, rfl⟩ := hp
    have hle : (i : ℚ) ≤ 19 := by exact_mod_cast Nat.lt_succ_iff.mp hi
    simp only
    nlinarith
  · apply List.ne_nil_of_length_pos
    simp [generateSpiralPattern]
  · have hd : (generateSpiralPattern cosS sinS br ts ms i3 n3).duration =
        14400 := by simp [generateSpiralPattern]; norm_num
    rw [hd]
    refine maxTimestamp_le _ (by norm_num) ?_
    intro p hp
    simp only [generateSpiralPattern, List.mem_map, List.mem_range] at hp
    obtain ⟨i, hi, rfl⟩ := hp
    have hle : (i : ℚ) ≤ 23 := by exact_mod_cast Nat.lt_succ_iff.mp hi
    simp only
    nlinarith
  · apply List.ne_nil_of_length_pos
    simp [generateFormationPattern, formations, List.enum, List.enumFrom]
  · have hmap : ((generateFormationPattern br ts ms i4 n4).points.map
        fun p => p.timestamp) =
        [0, 200, 400, 600, 4000, 4200, 4400, 4600, 8000, 8200, 8400, 8600] := by
      simp [generateFormationPattern, formations, List.enum, List.enumFrom]
      norm_num
    have hd : (generateFormationPattern br ts ms i4 n4).duration = 14000 := rfl
    rw [hd, maxTimestamp, hmap]
    norm_num [jsMax, List.foldl, max_def]
  · intro pts nm idStr
    constructor
    · intro hne
      have hlen : pts.length > 0 := List.length_pos.mpr hne
      simp only [mkSavedSequence, if_pos hlen]
      linarith
    · intro hnil
      simp [mkSavedSequence, hnil]

theorem generated_and_saved_duration_invariant_witness :
    maxTimestamp (generateCirclePattern (fun _ => 0) (fun _ => 0) 80 500 10
        "c" "Circle").points ≤
      (generateCirclePattern (fun _ => 0) (fun _ => 0) 80 500 10
        "c" "Circle").duration ∧
    maxTimestamp [samplePoint] ≤
      (mkSavedSequence [samplePoint] "n" "i").duration ∧
    (mkSavedSequence [] "n" "i").duration = 0 :=
  ⟨(generated_and_saved_duration_invariant (fun _ => 0) (fun _ => 0)
      (fun _ => 0) (fun _ => 0) (fun _ => 0) (fun _ => 0) 80 500 10
      "c" "Circle" "f8" "Fig8" "sp" "Spiral" "fm" "Formation").1.2,
    ((generated_and_saved_duration_invariant (fun _ => 0) (fun _ => 0)
      (fun _ => 0) (fun _ => 0) (fun _ => 0) (fun _ => 0) 80 500 10
      "c" "Circle" "f8" "Fig8" "sp" "Spiral" "fm" "Formation").2.2.2.2
      [samplePoint] "n" "i").1 (by simp),
    ((generated_and_saved_duration_invariant (fun _ => 0) (fun _ => 0)
      (fun _ => 0) (fun _ => 0) (fun _ => 0) (fun _ => 0) 80 500 10
      "c" "Circle" "f8" "Fig8" "sp" "Spiral" "fm" "Formation").2.2.2.2
      [] "n" "i").2 rfl⟩

/-! ## C7 — the 3D path renderer drops non-finite points

The renderer (`FlightPath`, flight-preview module lines 583-616) receives
`sequence.points` whose coordinate values, coming from persisted or
generated data, may be corrupted: JS numbers include `NaN` and `±Infinity`.
`JsNum` models such a value; `RawPoint` is a stored waypoint position as
the renderer sees it. -/

inductive JsNum where
  | fin (q : ℚ)
  | nan
  | inf (pos : Bool)
deriving DecidableEq, Repr

/-- Subtracting a finite constant from a JS number: `NaN` and infinities
propagate. -/
def JsNum.sub : JsNum → ℚ → JsNum
  | .fin q, c => .fin (q - c)
  | .nan, _ => .nan
  | .inf b, _ => .inf b

/-- Dividing a JS number by a positive finite constant: `NaN` and
infinities propagate (the divisors used are 20 and 10). -/
def JsNum.divC : JsNum → ℚ → JsNum
  | .fin q, c => .fin (q / c)
  | .nan, _ => .nan
  | .inf b, _ => .inf b

/-- JS `Number.isFinite`. -/
def JsNum.isFinite : JsNum → Bool
  | .fin _ => true
  | _ => false

/-- A stored waypoint position as the 3D renderer reads it (possibly
corrupted, hence `JsNum` coordinates). -/
structure RawPoint where
  x : JsNum
  y : JsNum
  z : JsNum
deriving DecidableEq, Repr

/-- The display-coordinate conversion of `FlightPath` (line 585):
`[(p.x - 200) / 20, p.z / 10, (p.y - 150) / 20]`. -/
def worldPoint (p : RawPoint) : JsNum × JsNum × JsNum :=
  ((p.x.sub 200).divC 20, p.z.divC 10, (p.y.sub 150).divC 20)

/-- Predicate `isFinitePoint` (flight-preview lines 498-499): all three components
finite. -/
def isFinitePoint (t : JsNum × JsNum × JsNum) : Bool :=
  t.1.isFinite && t.2.1.isFinite && t.2.2.isFinite

/-- The filtered display points of `FlightPath` (line 588):
`rawPts.filter(isFinitePoint)`. -/
def flightPathPoints (points : List RawPoint) : List (JsNum × JsNum × JsNum) :=
  (points.map worldPoint).filter isFinitePoint

/-- Component `FlightPath` (lines 591-616): `none` models the early `return null` when
fewer than 2 valid points remain; otherwise the drawn path is exactly the
filtered list. -/
def flightPathLine (points : List RawPoint) :
    Option (List (JsNum × JsNum × JsNum)) :=
  if (flightPathPoints points).length < 2 then none
  else some (flightPathPoints points)

/-- C7: the rendered path is a sublist of the world-mapped points (no
default is ever substituted), every element of it is fully finite, every
point whose world coordinates contain a non-finite value is excluded, and
when fewer than 2 finite points remain no path is drawn at all. -/
theorem flightpath_excludes_nonfinite (points : List RawPoint) :
    (flightPathPoints points).Sublist (points.map worldPoint) ∧
    (∀ t ∈ flightPathPoints points, isFinitePoint t = true) ∧
    (∀ p ∈ points, isFinitePoint (worldPoint p) = false →
      worldPoint p ∉ flightPathPoints points) ∧
    ((flightPathPoints points).length < 2 → flightPathLine points = none) := by
  refine ⟨List.filter_sublist _, ?_, ?_, ?_⟩
  · intro t ht
    exact List.of_mem_filter ht
  · intro p _ hbad hmem
    have := List.of_mem_filter hmem
    rw [hbad] at this
    exact Bool.false_ne_true this
  · intro hlt
    unfold flightPathLine
    rw [if_pos hlt]

def rawNanPoint : RawPoint := ⟨JsNum.nan, JsNum.fin 0, JsNum.fin 0⟩

def rawFinPoint : RawPoint := ⟨JsNum.fin 50, JsNum.fin 60, JsNum.fin 10⟩

theorem flightpath_excludes_nonfinite_witness :
    worldPoint rawNanPoint ∉ flightPathPoints [rawFinPoint, rawNanPoint] ∧
    flightPathLine [rawFinPoint, rawNanPoint] = none :=
  ⟨(flightpath_excludes_nonfinite [rawFinPoint, rawNanPoint]).2.2.1
      rawNanPoint (by simp)
      (by simp [worldPoint, isFinitePoint, rawNanPoint, JsNum.sub, JsNum.divC,
        JsNum.isFinite]),
    (flightpath_excludes_nonfinite [rawFinPoint, rawNanPoint]).2.2.2
      (by simp [flightPathPoints, worldPoint, isFinitePoint, rawNanPoint,
        rawFinPoint, JsNum.sub, JsNum.divC, JsNum.isFinite])⟩
